import Mathlib

/-!
Shallow embedding of the account-lifecycle core of django-couchdb-utils:
the `User` document (src/django_couchdb_utils/auth/models.py) and the
registration workflow (src/registration/models.py).

Modelling conventions:
* A CouchDB document is a `UserDoc`; the document database is a `Store`
  (a list of documents plus a fresh-id counter).  CouchDB's `_id` is
  `couchId : Option Nat` (`none` for a document that has never been saved,
  just as `self._id is None` in couchdbkit before the first save).
* Timestamps are integers in abstract time units; the configured
  activation window `ACCOUNT_ACTIVATION_DAYS` (converted to the same
  units) and the current clock reading are passed in explicitly.
* The optional `activation_key` attribute is `Option String`: `none`
  models both "attribute deleted" (`del user.activation_key`) and
  "never set"; Python truthiness of `getattr(self, 'activation_key',
  False)` is `keyTruthy`.
* SHA-1 is an external library call; it is passed in as an abstract
  hex-digest function `sha1hex : String → String`, and the random draws
  feeding salts are passed as explicit string arguments.
* Python exceptions are `Except String`; a Python function that falls off
  the end (returns `None`) or returns `False` yields `ActResult.falsy`.
-/

/-- The `User` document of src/django_couchdb_utils/auth/models.py plus the
`activation_key` property that `RegistrationUser` (src/registration/models.py)
adds to it.  An unset string property is modelled as `""`/`none`. -/
structure UserDoc where
  couchId : Option Nat
  username : String
  first_name : Option String
  last_name : Option String
  email : Option String
  password : String
  is_staff : Bool
  is_active : Bool
  is_superuser : Bool
  date_joined : Int
  activation_key : Option String
  deriving Repr, DecidableEq

/-- The document database: the saved documents in store order, plus the
counter handing out fresh document ids. -/
structure Store where
  docs : List UserDoc
  nextId : Nat
  deriving Repr, DecidableEq

/-- `User()` — a freshly constructed document: couchdbkit field defaults
`is_staff=False`, `is_active=True`, `is_superuser=False`,
`date_joined=datetime.utcnow()` (the construction time is the argument). -/
def newUser (joined : Int) : UserDoc :=
  { couchId := none
    username := ""
    first_name := none
    last_name := none
    email := none
    password := ""
    is_staff := false
    is_active := true
    is_superuser := false
    date_joined := joined
    activation_key := none }

/-- `User.get_user(username, is_active)` — the `users_by_username` view.
`is_active = none` models the Python call with `is_active=None`, i.e. the
range query `startkey=[username, False], endkey=[username, True]` matching
either activity state; otherwise the exact key `[username, is_active]`.
`first()` is the head of the matches in store order. -/
def get_user (st : Store) (username : String) (is_active : Option Bool) : Option UserDoc :=
  match is_active with
  | none => List.head? (st.docs.filter (fun u => u.username == username))
  | some b => List.head? (st.docs.filter (fun u => u.username == username && u.is_active == b))

/-- `User.check_username` — pass when `self._id is None` or no record holds
the username; otherwise pass only when the found record is this document.
(The Python code issues the `get_user` lookup before testing `self._id`;
the result only depends on the lookup in the branch that uses it.) -/
def check_username (st : Store) (u : UserDoc) : Bool :=
  match u.couchId with
  | none => true
  | some i =>
    match get_user st u.username none with
    | none => true
    | some v => v.couchId == some i

/-- `User.save` — raise `Exception('This username is already in use')` when
`check_username` fails, else delegate to couchdbkit's save: a document with
no `_id` is inserted with a fresh id, an existing one is updated in place. -/
def save (st : Store) (u : UserDoc) : Except String (Store × UserDoc) :=
  if check_username st u then
    match u.couchId with
    | none =>
      let saved := { u with couchId := some st.nextId }
      Except.ok ({ docs := st.docs ++ [saved], nextId := st.nextId + 1 }, saved)
    | some i =>
      Except.ok ({ st with docs := st.docs.map (fun v => if v.couchId == some i then u else v) }, u)
  else Except.error "This username is already in use"

/-- Python truthiness of `getattr(self, 'activation_key', False)`: a missing
attribute is `False`; a present string is truthy iff non-empty. -/
def keyTruthy : Option String → Bool
  | none => false
  | some s => !(s == "")

/-- `RegistrationUser.activation_key_expired` — the code returns
`getattr(self, 'activation_key', False) or (self.date_joined +
timedelta(days=ACCOUNT_ACTIVATION_DAYS) <= datetime.now())`, collapsed to
its boolean value.  `window` is the activation window, `now` the clock. -/
def activation_key_expired (window now : Int) (u : UserDoc) : Bool :=
  keyTruthy u.activation_key || decide (u.date_joined + window ≤ now)

/-- Lowercase-hex character class `[a-f0-9]`. -/
def isLowerHexDigit (c : Char) : Bool :=
  (decide ('a' ≤ c) && decide (c ≤ 'f')) || (decide ('0' ≤ c) && decide (c ≤ '9'))

/-- Exactly forty characters from `[a-f0-9]`. -/
def hexForty (l : List Char) : Bool :=
  (l.length == 40) && l.all isLowerHexDigit

/-- `SHA1_RE.search(s)` for `SHA1_RE = re.compile('^[a-f0-9]{40}$')` with
Python semantics: without `re.MULTILINE`, `^` anchors at the start of the
string and `$` matches at the end of the string or just before a single
newline at the end, so the search succeeds iff the string is forty
lowercase-hex characters optionally followed by one trailing newline. -/
def sha1_re_search (s : String) : Bool :=
  hexForty s.data ||
    (match s.data.getLast? with
     | some c => (c == '\n') && hexForty s.data.dropLast
     | none => false)

/-- The `registration/users_by_activation_key` view with `first()`: the
first stored document whose `activation_key` equals the given key. -/
def users_by_activation_key (st : Store) (key : String) : Option UserDoc :=
  List.head? (st.docs.filter (fun u => u.activation_key == some key))

/-- Outcome of `activate_user`: the activated `User`, a falsy value
(`False` or the implicit `None` of falling off the end), or a propagated
exception. -/
inductive ActResult where
  | user (u : UserDoc)
  | falsy
  | err (msg : String)
  deriving Repr, DecidableEq

/-- `activate_user(activation_key)` of src/registration/models.py.  The
returned `Nat` counts the store view queries issued: the format gate runs
before any store access; a matching non-expired user triggers the save path
(whose `check_username` issues one more query).  The broken `try:` block in
the source has no handler and is modelled as transparent. -/
def activate_user (window now : Int) (st : Store) (key : String) :
    ActResult × Store × Nat :=
  if sha1_re_search key then
    match users_by_activation_key st key with
    | none => (ActResult.falsy, st, 1)
    | some user =>
      if activation_key_expired window now user then (ActResult.falsy, st, 1)
      else
        match save st { user with activation_key := none, is_active := true } with
        | Except.ok (st2, saved) => (ActResult.user saved, st2, 2)
        | Except.error e => (ActResult.err e, st, 2)
  else (ActResult.falsy, st, 0)

/-- `delete_expired_users()` — iterate all users and delete each whose
`activation_key_expired()` is truthy and whose `is_active` is `False`. -/
def delete_expired_users (window now : Int) (st : Store) : Store :=
  { st with docs := st.docs.filter (fun u => !(activation_key_expired window now u && !u.is_active)) }

/-- Django's `get_hexdigest(algorithm, salt, raw_password)` for the fixed
`'sha1'` algorithm used here: `sha1(salt + raw).hexdigest()`, with the
digest itself the abstract `sha1hex`; an unknown algorithm raises
(`none`). -/
def get_hexdigest (sha1hex : String → String) (algo salt raw : String) : Option String :=
  if algo == "sha1" then some (sha1hex (salt ++ raw)) else none

/-- `User.set_password(raw_password)` — salt is
`get_hexdigest('sha1', str(random.random()), str(random.random()))[:5]`
(the two random draws are the arguments `r1`, `r2`), and the stored value
is `'sha1$salt$hash'`. -/
def set_password (sha1hex : String → String) (r1 r2 raw : String) (u : UserDoc) : UserDoc :=
  let salt := String.mk ((sha1hex (r1 ++ r2)).data.take 5)
  let hsh := sha1hex (salt ++ raw)
  { u with password := "sha1" ++ "$" ++ salt ++ "$" ++ hsh }

/-- Python `s.split(sep)` for a one-character separator: splits on every
occurrence and keeps empty parts. -/
def pySplit (sep : Char) : List Char → List (List Char)
  | [] => [[]]
  | c :: cs =>
    if c = sep then [] :: pySplit sep cs
    else
      match pySplit sep cs with
      | p :: ps => (c :: p) :: ps
      | [] => [[c]]

/-- Django's `check_password(raw_password, enc_password)` as delegated to by
`User.check_password`: split the stored value on `'$'` into
`algo, salt, hsh` (a different shape raises, modelled `none`), recompute
the digest with the stored salt and compare. -/
def check_password (sha1hex : String → String) (raw enc : String) : Option Bool :=
  match pySplit '$' enc.data with
  | [algo, salt, hsh] =>
    Option.map (fun d => String.mk hsh == d)
      (get_hexdigest sha1hex (String.mk algo) (String.mk salt) raw)
  | _ => none

/-- `create_profile(user)` — `salt = sha1(str(random.random())).hexdigest()[:5]`
(the random draw is `rnd`), then set
`user.activation_key = sha1(salt + username).hexdigest()` on the in-memory
object; no save. -/
def create_profile (sha1hex : String → String) (rnd : String) (u : UserDoc) : UserDoc :=
  let salt := String.mk ((sha1hex rnd).data.take 5)
  { u with activation_key := some (sha1hex (salt ++ u.username)) }

/-- `create_inactive_user(username, email, password, site, send_email)` —
build a `User`, hash the password, set `is_active=False`, save (one store
write, counted by the returned `Nat`), attach an activation key in memory
via `create_profile`, then — on the `send_email` path — hit the source's
reference to the undefined name `user`, a `NameError`. -/
def create_inactive_user (sha1hex : String → String) (r1 r2 rnd : String) (joined : Int)
    (st : Store) (username email password : String) (send_email : Bool) :
    Except String UserDoc × Store × Nat :=
  let nu1 := { newUser joined with username := username, email := some email }
  let nu2 := set_password sha1hex r1 r2 password nu1
  let nu3 := { nu2 with is_active := false }
  match save st nu3 with
  | Except.error e => (Except.error e, st, 0)
  | Except.ok (st2, saved) =>
    let withKey := create_profile sha1hex rnd saved
    if send_email then (Except.error "NameError: user is not defined", st2, 1)
    else (Except.ok withKey, st2, 1)

/-! Concrete fixtures used by the evaluation theorems and witnesses. -/

/-- A structurally well-formed activation key: forty lowercase-hex chars. -/
def keyA : String := String.mk (List.replicate 40 'a')

/-- `keyA` with a single trailing newline appended. -/
def keyNl : String := String.mk (List.replicate 40 'a' ++ ['\n'])

/-- A pending registration: inactive, holding the stored key `keyA`,
signed up at time 0 (inside a window of 10 at clock 0). -/
def uPending : UserDoc :=
  { newUser 0 with
      couchId := some 1
      username := "alice"
      email := some "a@x.com"
      password := "pw"
      is_active := false
      activation_key := some keyA }

/-- An already-activated account: active, key attribute deleted, signed up
at time 0 (inside a window of 10 at clock 0). -/
def uActivated : UserDoc :=
  { newUser 0 with
      couchId := some 2
      username := "bob"
      email := some "b@x.com"
      password := "pw"
      is_active := true
      activation_key := none }

/-- The empty store. -/
def st0 : Store := { docs := [], nextId := 0 }

/-- Store holding only the pending user `uPending`. -/
def st1 : Store := { docs := [uPending], nextId := 3 }

/-! Code-bug evaluation theorems. -/

/-- Claim C1: for a stored user whose `activation_key` equals the supplied
forty-hex key, inside the activation window and not yet activated,
`activate` is claimed to clear the key, set `is_active`, persist and return
the user.  Evaluating the code: the pending key itself makes
`activation_key_expired` truthy, so `activate_user` returns a falsy value
and leaves the store unchanged — the claimed activation never happens. -/
theorem C1_activate_never_activates :
    activate_user 10 0 st1 keyA = (ActResult.falsy, st1, 1) := by decide

/-- Claim C2: `activation_key_expired` is claimed true iff the user already
activated (key absent/sentinel) or the window has passed.  Evaluating the
code: a pending user inside the window (not activated, window open) is
reported expired, and an already-activated user inside the window is
reported not expired — the opposite of the claim on both sides. -/
theorem C2_expired_is_inverted :
    activation_key_expired 10 0 uPending = true ∧
    activation_key_expired 10 0 uActivated = false := by decide

/-- Claim C5: activating twice with the same key is claimed to return the
`User` first and `false` second.  Evaluating the code: already the first
call returns a falsy value (the pending key makes `activation_key_expired`
truthy), and so does the second. -/
theorem C5_first_activation_already_false :
    (activate_user 10 0 st1 keyA).1 = ActResult.falsy ∧
    (activate_user 10 0 (activate_user 10 0 st1 keyA).2.1 keyA).1 = ActResult.falsy := by
  decide

/-- A concrete stand-in digest used to evaluate the registration pipeline. -/
def toyDigest : String → String := fun _ => "k"

/-- The store after `create_inactive_user("alice", "a@x.com", "pw")` on the
empty store. -/
def stAfterFirstAlice : Store :=
  (create_inactive_user toyDigest "r1" "r2" "rs" 0 st0 "alice" "a@x.com" "pw" false).2.1

/-- Claim C3: a second `create_inactive_user` with an already-taken username
is claimed to fail with `DuplicateUsername`.  Evaluating the code: a fresh
document has `_id is None`, so `check_username` passes unconditionally and
the second create succeeds, leaving two stored records with username
`alice`. -/
theorem C3_duplicate_username_accepted :
    (match (create_inactive_user toyDigest "r1" "r2" "rs" 0 st0 "alice" "a@x.com" "pw" false).1 with
      | Except.ok _ => true
      | Except.error _ => false) = true ∧
    (match (create_inactive_user toyDigest "r3" "r4" "rs" 0 stAfterFirstAlice "alice" "b@x.com" "pw2" false).1 with
      | Except.ok _ => true
      | Except.error _ => false) = true ∧
    ((create_inactive_user toyDigest "r3" "r4" "rs" 0 stAfterFirstAlice "alice" "b@x.com" "pw2" false).2.1.docs.filter
        (fun d => d.username == "alice")).length = 2 := by
  decide

/-- Scenario user (a) of claim C4: active, expired stored key. -/
def uSweepA : UserDoc :=
  { newUser (-100) with
      couchId := some 1
      username := "ua"
      is_active := true
      activation_key := some keyA }

/-- Scenario user (b) of claim C4: inactive, expired stored key. -/
def uSweepB : UserDoc :=
  { newUser (-100) with
      couchId := some 2
      username := "ub"
      is_active := false
      activation_key := some keyA }

/-- Scenario user (c) of claim C4: inactive, key still inside the window. -/
def uSweepC : UserDoc :=
  { newUser 0 with
      couchId := some 3
      username := "uc"
      is_active := false
      activation_key := some keyA }

/-- The three-user store of claim C4's scenario. -/
def stSweep : Store := { docs := [uSweepA, uSweepB, uSweepC], nextId := 4 }

/-- Claim C4: the sweep is claimed to keep the inactive user whose key is
still inside the window (scenario user c), leaving exactly {a, c}.
Evaluating the code at window 10, clock 0: user c's pending key makes
`activation_key_expired` truthy, so c is deleted along with b and only the
active user a survives. -/
theorem C4_sweep_deletes_unexpired_pending :
    (delete_expired_users 10 0 stSweep).docs = [uSweepA] := by decide

/-! Theorems about the activation paths that do hold of the code. -/

/-- Claim C6: a well-formed key that matches a stored record whose
`activation_key_expired` is truthy makes `activate_user` return a falsy
value after the single lookup, leaving the whole store — and hence the
matched record's `activation_key`, `is_active` and persisted document —
unchanged. -/
theorem C6_expired_key_never_consumed (window now : Int) (st : Store) (key : String)
    (u : UserDoc)
    (hfmt : sha1_re_search key = true)
    (hfind : users_by_activation_key st key = some u)
    (hexp : activation_key_expired window now u = true) :
    activate_user window now st key = (ActResult.falsy, st, 1) := by
  simp [activate_user, hfmt, hfind, hexp]

/-- Witness for C6 at the concrete pending user `uPending` in `st1`. -/
theorem C6_expired_key_never_consumed_witness :
    sha1_re_search keyA = true ∧
    users_by_activation_key st1 keyA = some uPending ∧
    activation_key_expired 10 0 uPending = true ∧
    activate_user 10 0 st1 keyA = (ActResult.falsy, st1, 1) :=
  ⟨by decide, by decide, by decide,
    C6_expired_key_never_consumed 10 0 st1 keyA uPending (by decide) (by decide) (by decide)⟩

/-- The key pattern read with the usual anchored-regex semantics, following
the spec's words for claim C7: the whole input matches `[a-f0-9]` exactly
forty times.  Kept separate from `sha1_re_search`, which models Python's
`$` also matching just before one trailing newline. -/
def spec_key_pattern (s : String) : Bool := hexForty s.data

/-- Counterexample to claim C7 as stated: the input of forty hex characters
followed by a newline does not match the pattern under full-anchored
semantics, yet `activate_user` performs a store lookup (one access, not
zero), because Python's `SHA1_RE.search` accepts the trailing newline. -/
theorem C7_trailing_newline_counterexample :
    spec_key_pattern keyNl = false ∧ (activate_user 10 0 st1 keyNl).2.2 = 1 := by
  decide

/-- Claim C7 amended: for every key rejected by the code's format gate —
i.e. not forty lowercase-hex characters and not forty lowercase-hex
characters followed by a single trailing newline — `activate_user` returns
a falsy value with zero store accesses and an unchanged store. -/
theorem C7_no_lookup_on_malformed_key (window now : Int) (st : Store) (key : String)
    (h : sha1_re_search key = false) :
    activate_user window now st key = (ActResult.falsy, st, 0) := by
  simp [activate_user, h]

/-- Witness for the amended C7 at the concrete malformed key `"zzz"`. -/
theorem C7_no_lookup_on_malformed_key_witness :
    sha1_re_search "zzz" = false ∧
    activate_user 10 0 st1 "zzz" = (ActResult.falsy, st1, 0) :=
  ⟨by decide, C7_no_lookup_on_malformed_key 10 0 st1 "zzz" (by decide)⟩

/-! Password round-trip. -/

/-- `pySplit` of a separator-free list is the single part holding the whole
list. -/
theorem pySplit_nosep (sep : Char) (l : List Char) (h : ∀ c ∈ l, c ≠ sep) :
    pySplit sep l = [l] := by
  induction l with
  | nil => rfl
  | cons c cs ih =>
    have hc : c ≠ sep := h c (List.mem_cons_self c cs)
    have ih2 := ih (fun d hd => h d (List.mem_cons_of_mem c hd))
    simp [pySplit, hc, ih2]

/-- Splitting at the first separator: a separator-free chunk followed by the
separator contributes one complete part. -/
theorem pySplit_sep (sep : Char) (a b : List Char) (h : ∀ c ∈ a, c ≠ sep) :
    pySplit sep (a ++ sep :: b) = a :: pySplit sep b := by
  induction a with
  | nil => simp [pySplit]
  | cons x xs ih =>
    have hx : x ≠ sep := h x (List.mem_cons_self x xs)
    have ih2 := ih (fun d hd => h d (List.mem_cons_of_mem x hd))
    simp [pySplit, hx, ih2]

/-- Claim C8: for every digest function whose hex output never contains the
separator `'$'` (true of a hex digest), every pair of random draws feeding
the salt, every raw password and every starting document,
`check_password` accepts the password stored by `set_password`: the stored
value parses as `sha1$salt$digest` and the digest recomputed from the
stored salt matches. -/
theorem C8_check_password_roundtrip (sha1hex : String → String)
    (hfree : ∀ s, '$' ∉ (sha1hex s).data) (r1 r2 raw : String) (u : UserDoc) :
    check_password sha1hex raw ((set_password sha1hex r1 r2 raw u).password) = some true := by
  have hsalt : ∀ c ∈ (sha1hex (r1 ++ r2)).data.take 5, c ≠ '$' := by
    intro c hc heq
    exact hfree (r1 ++ r2) (heq ▸ List.take_subset 5 _ hc)
  have hsha : ∀ c ∈ "sha1".data, c ≠ '$' := by decide
  have hhsh : ∀ c ∈ (sha1hex (String.mk ((sha1hex (r1 ++ r2)).data.take 5) ++ raw)).data, c ≠ '$' := by
    intro c hc heq
    exact hfree (String.mk ((sha1hex (r1 ++ r2)).data.take 5) ++ raw) (heq ▸ hc)
  show check_password sha1hex raw
      ("sha1" ++ "$" ++ String.mk ((sha1hex (r1 ++ r2)).data.take 5) ++ "$"
        ++ sha1hex (String.mk ((sha1hex (r1 ++ r2)).data.take 5) ++ raw)) = some true
  have hdata :
      ("sha1" ++ "$" ++ String.mk ((sha1hex (r1 ++ r2)).data.take 5) ++ "$"
        ++ sha1hex (String.mk ((sha1hex (r1 ++ r2)).data.take 5) ++ raw)).data
      = "sha1".data ++ '$' ::
          ((sha1hex (r1 ++ r2)).data.take 5 ++ '$' ::
            (sha1hex (String.mk ((sha1hex (r1 ++ r2)).data.take 5) ++ raw)).data) := by
    simp [String.data_append]
  rw [check_password, hdata, pySplit_sep '$' _ _ hsha, pySplit_sep '$' _ _ hsalt,
    pySplit_nosep '$' _ hhsh]
  simp [get_hexdigest]

/-- Witness for C8 at the concrete digest `toyDigest` (whose output holds
no `'$'`), random draws `"r1"`, `"r2"` and password `"pw"`. -/
theorem C8_check_password_roundtrip_witness :
    check_password toyDigest "pw" ((set_password toyDigest "r1" "r2" "pw" (newUser 0)).password)
      = some true :=
  C8_check_password_roundtrip toyDigest (fun _ => show '$' ∉ ("k" : String).data by decide)
    "r1" "r2" "pw" (newUser 0)

/-! Registration creation. -/

/-- Claim C9: `create_inactive_user` writes to the store exactly once,
appending a single document that carries no `activation_key` — the key
generated afterwards by `create_profile` lives only on the returned
in-memory object (or is lost to the `NameError` on the email path), and the
stored fields are exactly those present at the single save. -/
theorem C9_persist_once_before_key (sha1hex : String → String) (r1 r2 rnd : String)
    (joined : Int) (st : Store) (un em pw : String) (se : Bool) :
    ∃ d : UserDoc, ∃ k : String,
      (create_inactive_user sha1hex r1 r2 rnd joined st un em pw se).2.1
        = { docs := st.docs ++ [d], nextId := st.nextId + 1 } ∧
      (create_inactive_user sha1hex r1 r2 rnd joined st un em pw se).2.2 = 1 ∧
      d.activation_key = none ∧
      ((create_inactive_user sha1hex r1 r2 rnd joined st un em pw se).1
          = Except.ok { d with activation_key := some k } ∨
        (create_inactive_user sha1hex r1 r2 rnd joined st un em pw se).1
          = Except.error "NameError: user is not defined") := by
  cases se
  · exact ⟨_, _, rfl, rfl, rfl, Or.inl rfl⟩
  · exact ⟨_, sha1hex (String.mk ((sha1hex rnd).data.take 5) ++ un), rfl, rfl, rfl, Or.inr rfl⟩

/-- Claim C10: a directly constructed `User` defaults to `is_active=true`,
`is_staff=false`, `is_superuser=false`; the record stored by
`create_inactive_user` is inactive only because the workflow sets
`is_active=False` explicitly before saving. -/
theorem C10_active_by_default_inactive_by_workflow (joined : Int)
    (sha1hex : String → String) (r1 r2 rnd : String)
    (st : Store) (un em pw : String) (se : Bool) :
    (newUser joined).is_active = true ∧ (newUser joined).is_staff = false ∧
    (newUser joined).is_superuser = false ∧
    ∃ d : UserDoc,
      (create_inactive_user sha1hex r1 r2 rnd joined st un em pw se).2.1.docs
        = st.docs ++ [d] ∧ d.is_active = false := by
  cases se
  · exact ⟨rfl, rfl, rfl, _, rfl, rfl⟩
  · exact ⟨rfl, rfl, rfl, _, rfl, rfl⟩
